import Mathlib

/-!
Verification of the intent-classification and response-dispatch core of the
chat responder (`generateChatbotResponse` in `src/routes/auth.js`), together
with the relevant part of the chat endpoint handler (the `router.post` chat route)
that wraps a classifier result into an HTTP JSON payload.

The JavaScript is embedded shallowly:
* a JS object literal becomes an association list from field names to values
  (`JsObject`), and property access becomes `jsGet`;
* `String.prototype.toLowerCase` (ASCII range, the only range exercised by the
  keyword rules), `String.prototype.trim` and `String.prototype.includes`
  become `jsToLower`, `jsTrim` and `jsIncludes`;
* the early-return `if` chain becomes a nested `if` expression.
-/

/-- The values occurring in the response objects of the chatbot: JS strings and
JS arrays of strings. -/
inductive JsValue where
  | str : String → JsValue
  | list : List String → JsValue
deriving DecidableEq

/-- A JS object, embedded as an association list from field names to values. -/
abbrev JsObject := List (String × JsValue)

/-- JS property access `o.k`: the value of the first binding of field `k`,
`none` when the object has no such field (JS `undefined`). -/
def jsGet (o : JsObject) (k : String) : Option JsValue :=
  (o.find? (fun p => p.1 == k)).map (fun p => p.2)

/-- ASCII lower-casing of one character, the action of JS `toLowerCase` on
the basic latin range (the only characters the keyword rules inspect). -/
def lowerChar (c : Char) : Char :=
  if 65 ≤ c.toNat ∧ c.toNat ≤ 90 then Char.ofNat (c.toNat + 32) else c

/-- Model of JS `String.prototype.toLowerCase`. -/
def jsToLower (s : String) : String :=
  ⟨s.data.map lowerChar⟩

/-- Model of JS `String.prototype.trim`: drop whitespace from both ends. -/
def jsTrim (s : String) : String :=
  ⟨((s.data.dropWhile Char.isWhitespace).reverse.dropWhile Char.isWhitespace).reverse⟩

/-- Test whether `needle` is an initial segment of `hay` (auxiliary to the
substring check). -/
def charsLeads : List Char → List Char → Bool
  | [], _ => true
  | _ :: _, [] => false
  | a :: as, b :: bs => a == b && charsLeads as bs

/-- Test whether `needle` occurs contiguously somewhere in `hay`. -/
def charsHasSub (needle : List Char) : List Char → Bool
  | [] => charsLeads needle []
  | b :: bs => charsLeads needle (b :: bs) || charsHasSub needle bs

/-- Model of JS `s.includes(pat)`: `pat` occurs as a contiguous substring
of `s`. -/
def jsIncludes (s pat : String) : Bool :=
  charsHasSub pat.data s.data

/-- The classifier, translated clause by clause from
`generateChatbotResponse(message, userId)` in `src/routes/auth.js`
(lines 276–339). `userId` is received but never read, exactly as in the
source. -/
def generateChatbotResponse (message : String) (_userId : String) : JsObject :=
  let lowerMessage := jsTrim (jsToLower message)
  if jsIncludes lowerMessage "order" &&
      (jsIncludes lowerMessage "status" || jsIncludes lowerMessage "#") then
    [("intent", JsValue.str "order_status"),
     ("message", JsValue.str "🔍 I can help you check your order status! Could you please provide your order number? It usually starts with # followed by numbers."),
     ("suggestions", JsValue.list ["Check order #12345", "My recent orders", "Help with orders"])]
  else if jsIncludes lowerMessage "order" && jsIncludes lowerMessage "details" then
    [("intent", JsValue.str "order_details"),
     ("message", JsValue.str "📋 I can show you detailed information about your order. Please share your order number so I can look it up for you."),
     ("suggestions", JsValue.list ["Order #12345 details", "What did I order?", "Order summary"])]
  else if jsIncludes lowerMessage "shipping" || jsIncludes lowerMessage "delivery" ||
      jsIncludes lowerMessage "track" then
    [("intent", JsValue.str "shipping_info"),
     ("message", JsValue.str "🚚 I can help you with shipping and delivery information! Please provide your order number to get tracking details."),
     ("suggestions", JsValue.list ["Track order #12345", "Delivery time", "Shipping options"])]
  else if jsIncludes lowerMessage "return" || jsIncludes lowerMessage "refund" then
    [("intent", JsValue.str "return_request"),
     ("message", JsValue.str "↩️ I can help you with returns and refunds. Our return policy allows returns within 30 days. What would you like to return?"),
     ("suggestions", JsValue.list ["Return policy", "Start a return", "Refund status"])]
  else if jsIncludes lowerMessage "hello" || jsIncludes lowerMessage "hi" ||
      jsIncludes lowerMessage "hey" then
    [("intent", JsValue.str "greeting"),
     ("message", JsValue.str "👋 Hello! I\u0027m your order assistant. I can help you with order status, shipping information, returns, and more. How can I assist you today?"),
     ("suggestions", JsValue.list ["Check order status", "Track my package", "Return an item", "Help"])]
  else if jsIncludes lowerMessage "help" || jsIncludes lowerMessage "what can you do" then
    [("intent", JsValue.str "help"),
     ("message", JsValue.str "🤖 I\u0027m here to help with your orders! I can:\n\n• Check order status and details\n• Provide shipping and tracking information\n• Help with returns and refunds\n• Answer questions about our policies\n\nJust ask me about any of these topics!"),
     ("suggestions", JsValue.list ["Check order status", "Shipping info", "Return policy", "Track package"])]
  else
    [("intent", JsValue.str "unknown"),
     ("message", JsValue.str "🤔 I\u0027m not sure I understand. I specialize in helping with orders, shipping, and returns. Could you please rephrase your question or ask me about:\n\n• Order status\n• Tracking information\n• Returns and refunds\n• General help"),
     ("suggestions", JsValue.list ["Check order status", "Help", "What can you do?", "Track my order"])]

/-- The JSON payload built by the chat endpoint handler (the `router.post` chat
route in `src/routes/auth.js`, lines 242–248) from the classifier result: it adds
`sessionId` and its own `new Date().toISOString()` timestamp (passed in here
as `timestamp`), and defaults a missing `suggestions` field to `[]`. -/
def chatResponseJson (sessionId : String) (botResponse : JsObject)
    (timestamp : String) : JsObject :=
  [("sessionId", JsValue.str sessionId),
   ("message", (jsGet botResponse "message").getD (JsValue.str "")),
   ("intent", (jsGet botResponse "intent").getD (JsValue.str "")),
   ("suggestions", (jsGet botResponse "suggestions").getD (JsValue.list [])),
   ("timestamp", JsValue.str timestamp)]

/-- Modelled from the spec (§4.1 Normalization), for the refinement claim:
lower-case the input, trim leading and trailing whitespace. -/
def specNormalize (s : String) : String :=
  jsTrim (jsToLower s)

/-- Modelled from the spec (§4.1 Rule evaluation), for the refinement claim:
the fixed, ordered rule table, each rule an intent name paired with its
keyword predicate on the normalized text. -/
def specRules : List (String × (String → Bool)) :=
  [("order_status", fun t => jsIncludes t "order" &&
      (jsIncludes t "status" || jsIncludes t "#")),
   ("order_details", fun t => jsIncludes t "order" && jsIncludes t "details"),
   ("shipping_info", fun t => jsIncludes t "shipping" || jsIncludes t "delivery" ||
      jsIncludes t "track"),
   ("return_request", fun t => jsIncludes t "return" || jsIncludes t "refund"),
   ("greeting", fun t => jsIncludes t "hello" || jsIncludes t "hi" ||
      jsIncludes t "hey"),
   ("help", fun t => jsIncludes t "help" || jsIncludes t "what can you do")]

/-- Modelled from the spec (§4.1): first rule whose predicate holds on the
normalized text wins; `"unknown"` when none holds. -/
def specFirstMatch (t : String) : String :=
  match specRules.find? (fun r => r.2 t) with
  | some r => r.1
  | none => "unknown"

set_option maxRecDepth 8192

/-- The seven fixed response objects of the classifier, indexed by intent
name (any name outside the rule table maps to the default object). The
bodies are the object literals of `generateChatbotResponse`; the dispatch
lemma below proves the classifier always returns the object for the intent
selected by the first matching rule. -/
def intentResponses : String → JsObject
  | "order_status" =>
    [("intent", JsValue.str "order_status"),
     ("message", JsValue.str "🔍 I can help you check your order status! Could you please provide your order number? It usually starts with # followed by numbers."),
     ("suggestions", JsValue.list ["Check order #12345", "My recent orders", "Help with orders"])]
  | "order_details" =>
    [("intent", JsValue.str "order_details"),
     ("message", JsValue.str "📋 I can show you detailed information about your order. Please share your order number so I can look it up for you."),
     ("suggestions", JsValue.list ["Order #12345 details", "What did I order?", "Order summary"])]
  | "shipping_info" =>
    [("intent", JsValue.str "shipping_info"),
     ("message", JsValue.str "🚚 I can help you with shipping and delivery information! Please provide your order number to get tracking details."),
     ("suggestions", JsValue.list ["Track order #12345", "Delivery time", "Shipping options"])]
  | "return_request" =>
    [("intent", JsValue.str "return_request"),
     ("message", JsValue.str "↩️ I can help you with returns and refunds. Our return policy allows returns within 30 days. What would you like to return?"),
     ("suggestions", JsValue.list ["Return policy", "Start a return", "Refund status"])]
  | "greeting" =>
    [("intent", JsValue.str "greeting"),
     ("message", JsValue.str "👋 Hello! I\u0027m your order assistant. I can help you with order status, shipping information, returns, and more. How can I assist you today?"),
     ("suggestions", JsValue.list ["Check order status", "Track my package", "Return an item", "Help"])]
  | "help" =>
    [("intent", JsValue.str "help"),
     ("message", JsValue.str "🤖 I\u0027m here to help with your orders! I can:\n\n• Check order status and details\n• Provide shipping and tracking information\n• Help with returns and refunds\n• Answer questions about our policies\n\nJust ask me about any of these topics!"),
     ("suggestions", JsValue.list ["Check order status", "Shipping info", "Return policy", "Track package"])]
  | _ =>
    [("intent", JsValue.str "unknown"),
     ("message", JsValue.str "🤔 I\u0027m not sure I understand. I specialize in helping with orders, shipping, and returns. Could you please rephrase your question or ask me about:\n\n• Order status\n• Tracking information\n• Returns and refunds\n• General help"),
     ("suggestions", JsValue.list ["Check order status", "Help", "What can you do?", "Track my order"])]

/-- Dispatch lemma: the classifier returns exactly the fixed response object
for the intent selected by first-match evaluation of the spec rule table. -/
lemma gen_eq_dispatch (m u : String) :
    generateChatbotResponse m u = intentResponses (specFirstMatch (specNormalize m)) := by
  simp only [generateChatbotResponse, specFirstMatch, specRules, specNormalize, List.find?]
  cases h1 : jsIncludes (jsTrim (jsToLower m)) "order" &&
      (jsIncludes (jsTrim (jsToLower m)) "status" || jsIncludes (jsTrim (jsToLower m)) "#") with
  | true => simp [h1, intentResponses]
  | false =>
  cases h2 : jsIncludes (jsTrim (jsToLower m)) "order" && jsIncludes (jsTrim (jsToLower m)) "details" with
  | true => simp [h1, h2, intentResponses]
  | false =>
  cases h3 : jsIncludes (jsTrim (jsToLower m)) "shipping" || jsIncludes (jsTrim (jsToLower m)) "delivery" ||
      jsIncludes (jsTrim (jsToLower m)) "track" with
  | true => simp [h1, h2, h3, intentResponses]
  | false =>
  cases h4 : jsIncludes (jsTrim (jsToLower m)) "return" || jsIncludes (jsTrim (jsToLower m)) "refund" with
  | true => simp [h1, h2, h3, h4, intentResponses]
  | false =>
  cases h5 : jsIncludes (jsTrim (jsToLower m)) "hello" || jsIncludes (jsTrim (jsToLower m)) "hi" ||
      jsIncludes (jsTrim (jsToLower m)) "hey" with
  | true => simp [h1, h2, h3, h4, h5, intentResponses]
  | false =>
  cases h6 : jsIncludes (jsTrim (jsToLower m)) "help" || jsIncludes (jsTrim (jsToLower m)) "what can you do" with
  | true => simp [h1, h2, h3, h4, h5, h6, intentResponses]
  | false => simp [h1, h2, h3, h4, h5, h6, intentResponses]

/-- Intent lemma: the `intent` field of the classifier result is the intent
name chosen by first-match evaluation of the spec rule table on the
normalized text. -/
lemma gen_intent_firstMatch (m u : String) :
    jsGet (generateChatbotResponse m u) "intent" =
      some (JsValue.str (specFirstMatch (specNormalize m))) := by
  simp only [generateChatbotResponse, specFirstMatch, specRules, specNormalize, List.find?]
  cases h1 : jsIncludes (jsTrim (jsToLower m)) "order" &&
      (jsIncludes (jsTrim (jsToLower m)) "status" || jsIncludes (jsTrim (jsToLower m)) "#") with
  | true => simp [h1, jsGet, List.find?]
  | false =>
  cases h2 : jsIncludes (jsTrim (jsToLower m)) "order" && jsIncludes (jsTrim (jsToLower m)) "details" with
  | true => simp [h1, h2, jsGet, List.find?]
  | false =>
  cases h3 : jsIncludes (jsTrim (jsToLower m)) "shipping" || jsIncludes (jsTrim (jsToLower m)) "delivery" ||
      jsIncludes (jsTrim (jsToLower m)) "track" with
  | true => simp [h1, h2, h3, jsGet, List.find?]
  | false =>
  cases h4 : jsIncludes (jsTrim (jsToLower m)) "return" || jsIncludes (jsTrim (jsToLower m)) "refund" with
  | true => simp [h1, h2, h3, h4, jsGet, List.find?]
  | false =>
  cases h5 : jsIncludes (jsTrim (jsToLower m)) "hello" || jsIncludes (jsTrim (jsToLower m)) "hi" ||
      jsIncludes (jsTrim (jsToLower m)) "hey" with
  | true => simp [h1, h2, h3, h4, h5, jsGet, List.find?]
  | false =>
  cases h6 : jsIncludes (jsTrim (jsToLower m)) "help" || jsIncludes (jsTrim (jsToLower m)) "what can you do" with
  | true => simp [h1, h2, h3, h4, h5, h6, jsGet, List.find?]
  | false => simp [h1, h2, h3, h4, h5, h6, jsGet, List.find?]

/-- Nat codes below the surrogate range are valid scalar values. -/
lemma isValidChar_of_lt (n : Nat) (h : n < 0xd800) : n.isValidChar := Or.inl h

/-- Round trip through `Char.ofNat` for a valid scalar value. -/
lemma char_toNat_ofNat (n : Nat) (h : n.isValidChar) : (Char.ofNat n).toNat = n := by
  simp [Char.ofNat, h, Char.ofNatAux, Char.toNat, UInt32.toNat]

/-- ASCII lower-casing of a character is idempotent. -/
lemma lowerChar_idem (c : Char) : lowerChar (lowerChar c) = lowerChar c := by
  unfold lowerChar
  by_cases h : 65 ≤ c.toNat ∧ c.toNat ≤ 90
  · rw [if_pos h]
    have hv : (c.toNat + 32).isValidChar := isValidChar_of_lt _ (by omega)
    rw [if_neg]
    rw [char_toNat_ofNat _ hv]
    omega
  · rw [if_neg h, if_neg h]

/-- Lower-casing a string is idempotent. -/
lemma jsToLower_idem (s : String) : jsToLower (jsToLower s) = jsToLower s := by
  unfold jsToLower
  have h : lowerChar ∘ lowerChar = lowerChar := funext lowerChar_idem
  simp [List.map_map, h]

/-- C1: for every string utterance, the classifier first normalizes it
(lower-case, trim) and then returns the intent of the first rule, in the
fixed order order_status, order_details, shipping_info, return_request,
greeting, help, whose substring predicate holds on the normalized text,
and the intent "unknown" if none holds. -/
theorem C1_first_match_rule_refinement (m u : String) :
    jsGet (generateChatbotResponse m u) "intent" =
      some (JsValue.str (specFirstMatch (specNormalize m))) :=
  gen_intent_firstMatch m u

/-- C2: for every input whose normalized text contains "order" and "#" but
not "status", the classifier returns intent "order_status" (first-match-wins
over order_details and return_request). -/
theorem C2_order_hash_wins (m u : String)
    (h1 : jsIncludes (jsTrim (jsToLower m)) "order" = true)
    (h2 : jsIncludes (jsTrim (jsToLower m)) "#" = true)
    (_h3 : jsIncludes (jsTrim (jsToLower m)) "status" = false) :
    jsGet (generateChatbotResponse m u) "intent" = some (JsValue.str "order_status") := by
  simp [generateChatbotResponse, h1, h2, jsGet, List.find?]

/-- Witness for C2 at the input named by the claim: "I want a refund for
order #12345" is classified as order_status, not return_request. -/
theorem C2_witness :
    jsGet (generateChatbotResponse "I want a refund for order #12345" "u2") "intent" =
      some (JsValue.str "order_status") :=
  C2_order_hash_wins "I want a refund for order #12345" "u2"
    (by decide) (by decide) (by decide)

/-- C3: for every input whose normalized text contains both "order" and
"status", the classifier returns intent "order_status", regardless of
letter case or surrounding text. -/
theorem C3_order_status_keyword (m u : String)
    (h1 : jsIncludes (jsTrim (jsToLower m)) "order" = true)
    (h2 : jsIncludes (jsTrim (jsToLower m)) "status" = true) :
    jsGet (generateChatbotResponse m u) "intent" = some (JsValue.str "order_status") := by
  simp [generateChatbotResponse, h1, h2, jsGet, List.find?]

/-- Witness for C3 at a mixed-case input with surrounding text. -/
theorem C3_witness :
    jsGet (generateChatbotResponse "What is the STATUS of my ORDER?" "u3") "intent" =
      some (JsValue.str "order_status") :=
  C3_order_status_keyword "What is the STATUS of my ORDER?" "u3" (by decide) (by decide)

/-- C4: the classifier is total over all strings (it is a total function of
this embedding, never an exception), and whenever none of the six rule
predicates holds on the normalized text it returns the fixed "unknown"
object with the fixed guidance message and the fixed suggestion list. -/
theorem C4_default_unknown (m u : String)
    (h1 : (jsIncludes (jsTrim (jsToLower m)) "order" &&
      (jsIncludes (jsTrim (jsToLower m)) "status" ||
        jsIncludes (jsTrim (jsToLower m)) "#")) = false)
    (h2 : (jsIncludes (jsTrim (jsToLower m)) "order" &&
      jsIncludes (jsTrim (jsToLower m)) "details") = false)
    (h3 : (jsIncludes (jsTrim (jsToLower m)) "shipping" ||
      jsIncludes (jsTrim (jsToLower m)) "delivery" ||
      jsIncludes (jsTrim (jsToLower m)) "track") = false)
    (h4 : (jsIncludes (jsTrim (jsToLower m)) "return" ||
      jsIncludes (jsTrim (jsToLower m)) "refund") = false)
    (h5 : (jsIncludes (jsTrim (jsToLower m)) "hello" ||
      jsIncludes (jsTrim (jsToLower m)) "hi" ||
      jsIncludes (jsTrim (jsToLower m)) "hey") = false)
    (h6 : (jsIncludes (jsTrim (jsToLower m)) "help" ||
      jsIncludes (jsTrim (jsToLower m)) "what can you do") = false) :
    generateChatbotResponse m u =
      [("intent", JsValue.str "unknown"),
       ("message", JsValue.str "🤔 I\u0027m not sure I understand. I specialize in helping with orders, shipping, and returns. Could you please rephrase your question or ask me about:\n\n• Order status\n• Tracking information\n• Returns and refunds\n• General help"),
       ("suggestions", JsValue.list ["Check order status", "Help", "What can you do?", "Track my order"])] := by
  simp [generateChatbotResponse, h1, h2, h3, h4, h5, h6]

/-- Witness for C4 at the empty string: no rule matches and the result is
the fixed unknown object. -/
theorem C4_witness :
    generateChatbotResponse "" "u4" =
      [("intent", JsValue.str "unknown"),
       ("message", JsValue.str "🤔 I\u0027m not sure I understand. I specialize in helping with orders, shipping, and returns. Could you please rephrase your question or ask me about:\n\n• Order status\n• Tracking information\n• Returns and refunds\n• General help"),
       ("suggestions", JsValue.list ["Check order status", "Help", "What can you do?", "Track my order"])] :=
  C4_default_unknown "" "u4" (by decide) (by decide) (by decide)
    (by decide) (by decide) (by decide)

/-- C5: classification is case-insensitive: classifying any string gives
the same result as classifying its lower-cased form; in particular "HELP",
"help" and "Help me" all receive the identical help response. -/
theorem C5_case_insensitive :
    (∀ x u : String, generateChatbotResponse x u = generateChatbotResponse (jsToLower x) u) ∧
    generateChatbotResponse "HELP" "u5" = generateChatbotResponse "help" "u5" ∧
    generateChatbotResponse "Help me" "u5" = generateChatbotResponse "help" "u5" :=
  ⟨fun x u => by simp only [generateChatbotResponse, jsToLower_idem],
   by decide, by decide⟩

/-- C6: the classifier is deterministic: it is a pure function of the
message (and opaque userId) alone, so any two invocations with the same
input yield identical results — same intent, message and suggestions. -/
theorem C6_deterministic (x1 x2 u1 u2 : String) (hx : x1 = x2) (hu : u1 = u2) :
    generateChatbotResponse x1 u1 = generateChatbotResponse x2 u2 := by
  rw [hx, hu]

/-- Witness for C6: two invocations on the concrete input "hello" agree. -/
theorem C6_witness :
    generateChatbotResponse "hello" "u6" = generateChatbotResponse "hello" "u6" :=
  C6_deterministic "hello" "hello" "u6" "u6" rfl rfl

/-- C7: the caller-supplied userId is opaque to the classifier
(noninterference): for every message and any two userId values the results
are identical. -/
theorem C7_userId_noninterference (m u1 u2 : String) :
    generateChatbotResponse m u1 = generateChatbotResponse m u2 :=
  rfl

/-- C8 counterexample: the claim that no substring of the input ever
appears in the returned message or suggestions is false at the concrete
input "order #12345": the typed order number "#12345" is a substring of the
input, and the returned suggestion "Check order #12345" contains it. -/
theorem C8_counterexample :
    jsIncludes "order #12345" "#12345" = true ∧
    jsGet (generateChatbotResponse "order #12345" "u8") "suggestions" =
      some (JsValue.list ["Check order #12345", "My recent orders", "Help with orders"]) ∧
    jsIncludes "Check order #12345" "#12345" = true := by
  decide

/-- C8 (amended): responses are fixed and non-parameterized — any two
inputs assigned the same intent receive identical message and suggestion
constants (the result depends on the input only through the intent);
fixed constants may still coincide with substrings of the input. -/
theorem C8_same_intent_same_response (x y u v : String)
    (h : jsGet (generateChatbotResponse x u) "intent" =
      jsGet (generateChatbotResponse y v) "intent") :
    generateChatbotResponse x u = generateChatbotResponse y v := by
  rw [gen_intent_firstMatch x u, gen_intent_firstMatch y v] at h
  simp only [Option.some.injEq, JsValue.str.injEq] at h
  rw [gen_eq_dispatch x u, gen_eq_dispatch y v, h]

/-- Witness for C8: two different utterances with the same intent receive
the identical full response. -/
theorem C8_witness :
    generateChatbotResponse "order status please" "a" =
      generateChatbotResponse "my ORDER STATUS" "b" :=
  C8_same_intent_same_response "order status please" "my ORDER STATUS" "a" "b" (by decide)

/-- C9 counterexample: the classifier result carries no timestamp field (at
the concrete input "", and likewise everywhere): the timestamp of the HTTP
payload is produced only by the endpoint wrapper. -/
theorem C9_counterexample :
    jsGet (generateChatbotResponse "" "u9") "timestamp" = none := by
  decide

/-- C9 (amended): for every utterance the classifier returns the three
fields intent, message and suggestions and no timestamp field; the
timestamp of the HTTP response shape is added by the chat endpoint wrapper
around the classifier. -/
theorem C9_fields_and_wrapper_timestamp (m u sid ts : String) :
    (jsGet (generateChatbotResponse m u) "intent").isSome = true ∧
    (jsGet (generateChatbotResponse m u) "message").isSome = true ∧
    (jsGet (generateChatbotResponse m u) "suggestions").isSome = true ∧
    jsGet (generateChatbotResponse m u) "timestamp" = none ∧
    jsGet (chatResponseJson sid (generateChatbotResponse m u) ts) "timestamp" =
      some (JsValue.str ts) := by
  rw [gen_eq_dispatch]
  unfold intentResponses
  split <;> exact ⟨rfl, rfl, rfl, rfl, rfl⟩

/-- C10: for every input the suggestions list of the result is present and
has between 3 and 4 entries (hence non-empty), and the chat endpoint
passes it through unchanged, so its defaulting of missing suggestions to
the empty list is never exercised. -/
theorem C10_suggestions_nonempty (m u sid ts : String) :
    ∃ l, jsGet (generateChatbotResponse m u) "suggestions" = some (JsValue.list l) ∧
      3 ≤ l.length ∧ l.length ≤ 4 ∧
      jsGet (chatResponseJson sid (generateChatbotResponse m u) ts) "suggestions" =
        some (JsValue.list l) := by
  rw [gen_eq_dispatch]
  unfold intentResponses
  split <;> exact ⟨_, rfl, by decide, by decide, rfl⟩
